import Mathlib

/-!
Shallow embedding of `generate_labels.py` (qr-recordlabels): a script that
reads a Discogs CSV export and renders a PDF sheet of QR-code labels.

Modelling conventions:
* configparser data is a list of named sections, each an ordered list of
  `(key, value)` option pairs; `config.get` is first-match lookup and a
  missing key models `NoOptionError`.
* CSV rows (`csv.DictReader` output) are association lists from field name
  to string value; a missing key on `record[...]` models `KeyError`.
* reportlab dimension arithmetic is modelled over `ℚ`; the millimetre scale
  factor `mm = 72 / 25.4` is the rational `360/127` and `A4 = (210*mm, 297*mm)`.
* fallible steps return `Except PyErr`; an uncaught exception terminates the
  process with a non-zero status, modelled by `ExitResult.runtimeError`.
* command-line / file-existence validation (lines 36-73) is outside the
  model: `mainRun` receives the parsed configuration and the CSV rows.
-/

instance {ε α : Type} [DecidableEq ε] [DecidableEq α] : DecidableEq (Except ε α) := fun x y =>
  match x, y with
  | .ok a, .ok b => if h : a = b then .isTrue (by rw [h]) else .isFalse (by simp [h])
  | .error a, .error b => if h : a = b then .isTrue (by rw [h]) else .isFalse (by simp [h])
  | .ok _, .error _ => .isFalse (by simp)
  | .error _, .ok _ => .isFalse (by simp)

/-- Python exceptions that the script can raise and never catches. -/
inductive PyErr where
  | keyError (key : String)
  | nameError (nm : String)
  | zeroDivision
deriving DecidableEq

/-- A reportlab flowable appearing in a label: the text `Paragraph` built at
line 250, or the square QR `Drawing` built at lines 227-236 (payload URL and
side length `dims * profile['unit']`). -/
inductive Flowable where
  | text (s : String)
  | qr (payload : String) (size : ℚ)
deriving DecidableEq

/-- One label: the two flowables appended consecutively per record at lines
253-258. The source keeps rows as flat interleaved lists; a row of `n` cells
is the flat list of `2*n` flowables, modelled here as `n` pairs. -/
abbrev Cell := Flowable × Flowable

/-- One CSV row: field name to string value, as produced by `csv.DictReader`. -/
abbrev Record := List (String × String)

/-- First-match association-list lookup, used both for configparser options
and for CSV row fields. -/
def lookupKV : List (String × String) → String → Option String
  | [], _ => none
  | (k, v) :: rest, key => if k = key then some v else lookupKV rest key

/-- The digits of a decimal literal, or `none` when the character list is
empty or holds a non-digit: the failing half of Python `int(...)`. -/
def digitsOf (cs : List Char) : Option Nat :=
  if cs ≠ [] ∧ cs.all (fun c => c.isDigit) then
    some (cs.foldl (fun a c => a * 10 + (c.toNat - 48)) 0)
  else none

/-- Python `int(s)` on a string: strip surrounding whitespace, allow one
sign, then require a non-empty digit run; `none` models `ValueError`. -/
def pyInt (s : String) : Option Int :=
  let cs := (s.toList.dropWhile (fun c => c.isWhitespace)).reverse
  let cs := (cs.dropWhile (fun c => c.isWhitespace)).reverse
  match cs with
  | '-' :: rest => (digitsOf rest).map (fun n => -(n : Int))
  | '+' :: rest => (digitsOf rest).map (fun n => (n : Int))
  | rest => (digitsOf rest).map (fun n => (n : Int))

/-- reportlab `mm`: 72 points per inch over 25.4 mm per inch. -/
def mmQ : ℚ := 360 / 127

/-- reportlab `A4` page size: 210mm by 297mm, in points. -/
def pagesizeA4 : ℚ × ℚ := (210 * mmQ, 297 * mmQ)

/-- The `profile` dictionary of `main`: each field mirrors one key the
script may store (lines 107-145); `none` means the key is absent. -/
structure Profile where
  pagesize : Option (ℚ × ℚ) := none
  unit : Option ℚ := none
  height : Option Int := none
  width : Option Int := none
  rows : Option Int := none
  columns : Option Int := none
deriving DecidableEq

/-- Python `profile == {}` (line 150): no key was ever stored. -/
def Profile.isEmpty (p : Profile) : Bool :=
  p.pagesize.isNone && p.unit.isNone && p.height.isNone &&
    p.width.isNone && p.rows.isNone && p.columns.isNone

/-- One section of the configparser file: its name and its options. -/
structure CfgSection where
  name : String
  opts : List (String × String)
deriving DecidableEq

/-- `config.get(section, key)`: `none` models `configparser.NoOptionError`. -/
def CfgSection.lookup (s : CfgSection) (key : String) : Option String :=
  lookupKV s.opts key

/-- The whole configuration file: `config.sections()` in order. -/
abbrev Config := List CfgSection

/-- Outcome of processing the named profile's section (lines 102-149):
`broke` is the bare `break` out of the section loop, carrying whatever had
been stored into `profile` up to that point; `done` falls through to the
next section with the updated `profile` and `fields`. -/
inductive SectionResult where
  | broke (p : Profile)
  | done (p : Profile) (fields : List String)
deriving DecidableEq

/-- Lines 117-125: when no pagesize was stored, `height` then `width` must
each be present and parse as `int`; the bare `except` branches carry the
partially filled profile out of the section loop (`Except.error`). -/
def readHW (sec : CfgSection) (p1 : Profile) : Except Profile Profile :=
  if p1.pagesize.isNone then
    match sec.lookup "height" with
    | none => .error p1
    | some hs =>
      match pyInt hs with
      | none => .error p1
      | some h =>
        let p2 := { p1 with height := some h }
        match sec.lookup "width" with
        | none => .error p2
        | some ws =>
          match pyInt ws with
          | none => .error p2
          | some w => .ok { p2 with width := some w }
  else .ok p1

/-- Lines 102-149, the `elif section == args.profile` branch, starting from
the profile dictionary accumulated so far:
* missing `type` key: `break` before any write (lines 103-106);
* `pagesize` equal to the literal `A4` stores the A4 pair and the mm unit
  (lines 107-115); any other value, or absence, stores nothing;
* when no pagesize was stored, `height` then `width` must each be present
  and parse as `int`, else the bare `except` breaks with the partial
  profile (lines 117-125);
* `rows` / `columns` default to 1 on any failure (lines 126-135);
* a `unit` key equal to `mm` stores the mm factor (lines 136-142);
* `fields` splits on `:`, defaulting to artist/title (lines 143-149). -/
def processProfileSection (sec : CfgSection) (p0 : Profile) : SectionResult :=
  match sec.lookup "type" with
  | none => .broke p0
  | some _ =>
    let p1 :=
      match sec.lookup "pagesize" with
      | some v =>
        if v = "A4" then { p0 with pagesize := some pagesizeA4, unit := some mmQ } else p0
      | none => p0
    match readHW sec p1 with
    | .error p => .broke p
    | .ok p2 =>
      let p3 := { p2 with rows := some (((sec.lookup "rows").bind pyInt).getD 1),
                          columns := some (((sec.lookup "columns").bind pyInt).getD 1) }
      let p4 := if sec.lookup "unit" = some "mm" then { p3 with unit := some mmQ } else p3
      let f1 :=
        match sec.lookup "fields" with
        | some s => if s.splitOn ":" = [] then ["artist", "title"] else s.splitOn ":"
        | none => ["artist", "title"]
      .done p4 f1

/-- The mutable state threaded through the section-scanning loop of lines
90-149: the `profile` dictionary, the `swap_columns` flag (line 85) and the
`fields` list (line 88). -/
structure ScanState where
  profile : Profile
  swapColumns : Bool
  fields : List String
deriving DecidableEq

/-- Loop state before line 90. -/
def initState : ScanState := ⟨{}, false, []⟩

/-- The `for section in config.sections()` loop (lines 90-149). A `general`
section must hold a `type` key or the loop breaks (lines 91-95); otherwise
`swap-columns = yes` sets the flag (lines 96-101). The named profile's
section goes through `processProfileSection`; every other section is
skipped. A `break` returns the state accumulated so far. -/
def scanGo (pn : String) : List CfgSection → ScanState → ScanState
  | [], st => st
  | sec :: rest, st =>
    if sec.name = "general" then
      match sec.lookup "type" with
      | none => st
      | some _ =>
        let st' :=
          if sec.lookup "swap-columns" = some "yes" then { st with swapColumns := true } else st
        scanGo pn rest st'
    else if sec.name = pn then
      match processProfileSection sec st.profile with
      | .broke p => { st with profile := p }
      | .done p f => scanGo pn rest { st with profile := p, fields := f }
    else scanGo pn rest st

/-- Lines 172-179: when no pagesize was stored, read `profile['width']` and
`profile['height']` (`KeyError` when absent), store the page-size pair —
scaled only when a `unit` entry exists — and set `dims` to
`min(width, height) - 5`; with a stored pagesize, `dims = 35`. -/
def resolveDims (p : Profile) : Except PyErr (Profile × ℚ) :=
  match p.pagesize with
  | some _ => .ok (p, 35)
  | none =>
    match p.width with
    | none => .error (.keyError "width")
    | some w =>
      match p.height with
      | none => .error (.keyError "height")
      | some h =>
        let ps : ℚ × ℚ :=
          match p.unit with
          | some u => ((w : ℚ) * u, (h : ℚ) * u)
          | none => ((w : ℚ), (h : ℚ))
        .ok ({ p with pagesize := some ps }, ((min w h : ℤ) : ℚ) - 5)

/-- The geometry handed to reportlab: the `SimpleDocTemplate` margins and
page size (lines 184-186), the QR `Drawing` side (line 233) and the table
column width / row height (lines 270-271). -/
structure DocParams where
  leftMargin : ℚ
  rightMargin : ℚ
  topMargin : ℚ
  bottomMargin : ℚ
  pagesize : ℚ × ℚ
  drawingSize : ℚ
  colWidth : ℚ
  rowHeight : ℚ
deriving DecidableEq

/-- Lines 184-186 with the later per-cell sizes: every dimension below
multiplies `profile['unit']`, which is read unconditionally — when the
profile never stored a unit (no `A4` pagesize and no `unit = mm` key) the
read raises `KeyError('unit')`. -/
def docParams (p : Profile) (dims : ℚ) : Except PyErr DocParams :=
  match p.unit with
  | none => .error (.keyError "unit")
  | some u =>
    match p.pagesize with
    | none => .error (.keyError "pagesize")
    | some ps =>
      .ok { leftMargin := 0, rightMargin := 0, topMargin := -4 * u, bottomMargin := 0,
            pagesize := ps, drawingSize := dims * u, colWidth := dims * u,
            rowHeight := (dims + 2) * u }

/-- Value bound to the name `csvlines` when line 169 (and line 224) reads
it: no statement of `main` (lines 35-284) ever assigns `csvlines` — line
160 binds the parsed reader to `discogs_csv` instead — so the dynamic name
lookup fails, which Python reports as `NameError`. -/
def csvlinesVal : Option (List Record) := none

/-- Value bound to the name `csv_type` when line 225 reads it: no statement
of `main` ever assigns `csv_type` (the `-i` flag is stored as
`csv_type_inventory` on `args`, line 51), so the lookup fails. -/
def csvTypeVal : Option String := none

/-- Lines 224-230: the QR payload URL for one record, chosen by the shape:
`csv_type == "collection"` uses `release_id` in the release template, any
other shape uses `listing_id` in the sell-item template. -/
def codePayload (csvType : String) (record : Record) : Except PyErr String :=
  if csvType = "collection" then
    match lookupKV record "release_id" with
    | none => .error (.keyError "release_id")
    | some v => .ok ("https://www.discogs.com/release/" ++ v)
  else
    match lookupKV record "listing_id" with
    | none => .error (.keyError "listing_id")
    | some v => .ok ("https://www.discogs.com/sell/item/" ++ v)

/-- Lines 239-249, the text-building loop, carried field index (1-based)
and accumulator. Note the source tests and appends `record['field']` — the
literal key `'field'`, not the loop variable — so every iteration looks up
the column named `field`; when the record value is falsy and the field name
is `condition` it appends the `v/s:` composite; the `<br />` separator is
appended after every non-final field. -/
def buildTextGo (record : Record) (total : Nat) : List String → Nat → String → Except PyErr String
  | [], _, acc => .ok acc
  | f :: rest, i, acc =>
    match lookupKV record "field" with
    | none => .error (.keyError "field")
    | some v =>
      let step : Except PyErr String :=
        if v ≠ "" then .ok (acc ++ v)
        else if f = "condition" then
          match lookupKV record "media_condition" with
          | none => .error (.keyError "media_condition")
          | some m =>
            match lookupKV record "sleeve_condition" with
            | none => .error (.keyError "sleeve_condition")
            | some s => .ok (acc ++ "v/s: " ++ m ++ "/" ++ s)
        else .ok acc
      match step with
      | .error e => .error e
      | .ok acc1 => buildTextGo record total rest (i + 1) (if i < total then acc1 ++ "<br />" else acc1)

/-- The full text block for one record (lines 239-249). -/
def buildText (record : Record) (fields : List String) : Except PyErr String :=
  buildTextGo record fields.length fields 1 ""

/-- Modelled from the spec (§4.3, text block), for comparison against
`buildText`: the per-field emission — the record's value verbatim when
non-empty, else the `v/s:` composite for the literal field name
`condition`, else nothing. -/
def specEmitField (record : Record) (f : String) : String :=
  let condPart :=
    if f = "condition" then
      "v/s: " ++ ((lookupKV record "media_condition").getD "") ++ "/" ++
        ((lookupKV record "sleeve_condition").getD "")
    else ""
  match lookupKV record f with
  | some v => if v = "" then condPart else v
  | none => condPart

/-- Modelled from the spec (§4.3, text block): per-field outputs joined
with a line-break separator and no trailing separator. -/
def buildTextSpecModel (record : Record) (fields : List String) : String :=
  String.intercalate "<br/>" (fields.map (specEmitField record))

/-- Lines 259-266 at cell granularity: the running `tmpqueue` receives one
cell per record (`counter` is 1-based); when `counter % columns == 0` the
row is flushed into `data`; after the loop a non-empty remainder is
appended as-is. -/
def packGo {α : Type} (columns : Nat) : List α → Nat → List α → List (List α) → List (List α)
  | [], _, tmpqueue, data => if tmpqueue.isEmpty then data else data ++ [tmpqueue]
  | cell :: rest, counter, tmpqueue, data =>
    let tq := tmpqueue ++ [cell]
    if counter % columns = 0 then packGo columns rest (counter + 1) [] (data ++ [tq])
    else packGo columns rest (counter + 1) tq data

/-- The grid packer of lines 222-266, starting from `counter = 1` and an
empty buffer. -/
def packGrid {α : Type} (columns : Nat) (cells : List α) : List (List α) :=
  packGo columns cells 1 [] []

/-- Modelled from the spec (§4.4 Grid Packer): append each cell to a
running row buffer; when the buffer reaches `columns` length emit it as a
completed row and start a new buffer; at end of input emit any non-empty
remaining buffer as a final, possibly short, row. -/
def packRowsSpecGo {α : Type} (c : Nat) : List α → List α → List (List α)
  | buf, [] => if buf.isEmpty then [] else [buf]
  | buf, x :: rest =>
    if (buf ++ [x]).length = c then (buf ++ [x]) :: packRowsSpecGo c [] rest
    else packRowsSpecGo c (buf ++ [x]) rest

/-- Spec-worded grid packing from an empty buffer. -/
def packRowsSpec {α : Type} (c : Nat) (l : List α) : List (List α) :=
  packRowsSpecGo c [] l

/-- The per-record body of the loop at lines 222-266: payload URL (lines
224-230), square QR drawing (lines 232-236), text block (lines 238-250),
cell ordering by `swap_columns` (lines 252-258), and the row flush. The
first uncaught exception aborts the run. -/
def labelLoop (ct : String) (flds : List String) (swap : Bool) (cols : Nat) (dims u : ℚ) :
    List Record → Nat → List Cell → List (List Cell) → Except PyErr (List (List Cell))
  | [], _, tmpqueue, data => .ok (if tmpqueue = [] then data else data ++ [tmpqueue])
  | record :: rest, counter, tmpqueue, data =>
    match codePayload ct record with
    | .error e => .error e
    | .ok url =>
      match buildText record flds with
      | .error e => .error e
      | .ok txt =>
        let qrimage : Flowable := .qr url (dims * u)
        let qrhtml : Flowable := .text txt
        let cell : Cell := if swap then (qrimage, qrhtml) else (qrhtml, qrimage)
        let tq := tmpqueue ++ [cell]
        if counter % cols = 0 then labelLoop ct flds swap cols dims u rest (counter + 1) [] (data ++ [tq])
        else labelLoop ct flds swap cols dims u rest (counter + 1) tq data

/-- How one invocation of `main` ends, after the upfront file checks. -/
inductive ExitResult where
  | exitOk
  | configError (msg : String)
  | runtimeError (e : PyErr)
  | wroteOutput (grid : List (List Cell))
deriving DecidableEq

/-- `main` from the profile check onward (lines 77-284): unknown profile
name and empty profile exit with a diagnostic; then the CSV reader is bound
to `discogs_csv` (line 160) and line 169 reads the never-assigned name
`csvlines`; the remaining steps — page sizing, document margins, the record
loop reading `csv_type`, and `qrdoc.build` — follow in source order and are
modelled even though the `csvlines` read cannot succeed. The `records`
argument is the parsed CSV content, which only the name `discogs_csv` ever
denotes. -/
def mainRun (cfg : Config) (profileName : String) (records : List Record) : ExitResult :=
  if (cfg.map CfgSection.name).contains profileName then
    let st := scanGo profileName cfg initState
    if st.profile.isEmpty then ExitResult.configError "empty profile"
    else
      let _discogs_csv := records
      match csvlinesVal with
      | none => ExitResult.runtimeError (.nameError "csvlines")
      | some csvlines =>
        if csvlines.length = 0 then ExitResult.exitOk
        else
          match resolveDims st.profile with
          | .error e => ExitResult.runtimeError e
          | .ok (p, dims) =>
            match docParams p dims with
            | .error e => ExitResult.runtimeError e
            | .ok _ =>
              match csvTypeVal with
              | none => ExitResult.runtimeError (.nameError "csv_type")
              | some ct =>
                match p.unit, p.columns with
                | none, _ => ExitResult.runtimeError (.keyError "unit")
                | _, none => ExitResult.runtimeError (.keyError "columns")
                | some u, some cols =>
                  if cols ≤ 0 then ExitResult.runtimeError .zeroDivision
                  else
                    match labelLoop ct st.fields st.swapColumns cols.toNat dims u csvlines 1 [] [] with
                    | .error e => ExitResult.runtimeError e
                    | .ok grid => ExitResult.wroteOutput grid
  else ExitResult.configError "profile name not found in configuration file"

/-! ## Helper lemmas -/

theorem readHW_ok (sec : CfgSection) (p1 q : Profile) (hpg : p1.pagesize = none)
    (hok : readHW sec p1 = .ok q) :
    ∃ w h, (sec.lookup "height").bind pyInt = some h ∧
      (sec.lookup "width").bind pyInt = some w ∧
      q = { p1 with height := some h, width := some w } := by
  unfold readHW at hok
  rw [hpg] at hok
  split at hok
  · split at hok
    · simp at hok
    · rename_i hs hh
      split at hok
      · simp at hok
      · rename_i hv hhi
        split at hok
        · simp at hok
        · rename_i ws hw
          split at hok
          · simp at hok
          · rename_i wv hwi
            refine ⟨wv, hv, ?_, ?_, ?_⟩
            · rw [hh]; simpa using hhi
            · rw [hw]; simpa using hwi
            · simp only [Except.ok.injEq] at hok
              rw [hpg]
              exact hok.symm
  · rename_i h
    simp at h

theorem scanGo_profile_empty (pn : String) :
    ∀ (secs : List CfgSection) (st : ScanState), st.profile = {} →
      (∀ sec ∈ secs, sec.name = pn → sec.lookup "type" = none) →
      (scanGo pn secs st).profile = {} := by
  intro secs
  induction secs with
  | nil => intro st h _; simpa [scanGo] using h
  | cons sec rest ih =>
    intro st h hall
    have hrest : ∀ s ∈ rest, s.name = pn → s.lookup "type" = none := by
      intro s hs; exact hall s (List.mem_cons_of_mem _ hs)
    by_cases hg : sec.name = "general"
    · rw [scanGo, if_pos hg]
      cases ht : sec.lookup "type" with
      | none => simpa using h
      | some t =>
        by_cases hpn : sec.name = pn
        · rw [hall sec (List.mem_cons_self _ _) hpn] at ht; cases ht
        · refine ih _ ?_ hrest
          split <;> simp [h]
    · by_cases hpn : sec.name = pn
      · rw [scanGo, if_neg hg, if_pos hpn]
        have ht := hall sec (List.mem_cons_self _ _) hpn
        rw [processProfileSection, ht]
        simpa using h
      · rw [scanGo, if_neg hg, if_neg hpn]
        exact ih _ h hrest

theorem scanGo_skip (pn : String) :
    ∀ (pre l : List CfgSection) (st : ScanState),
      (∀ s ∈ pre, s.name ≠ "general" ∧ s.name ≠ pn) →
      scanGo pn (pre ++ l) st = scanGo pn l st := by
  intro pre
  induction pre with
  | nil => intro l st _; rfl
  | cons s rest ih =>
    intro l st h
    have hs := h s (List.mem_cons_self _ _)
    rw [List.cons_append, scanGo, if_neg hs.1, if_neg hs.2]
    exact ih l st (fun x hx => h x (List.mem_cons_of_mem _ hx))

theorem packGo_eq_spec {α : Type} (c : Nat) (hc : 0 < c) :
    ∀ (l : List α) (k : Nat) (tq : List α) (data : List (List α)),
      k % c = (tq.length + 1) % c → tq.length + 1 ≤ c →
      packGo c l k tq data = data ++ packRowsSpecGo c tq l := by
  intro l
  induction l with
  | nil =>
    intro k tq data h1 h2
    rw [packGo, packRowsSpecGo]
    cases htq : tq.isEmpty <;> simp [htq]
  | cons x rest ih =>
    intro k tq data h1 h2
    rw [packGo, packRowsSpecGo]
    by_cases hk : k % c = 0
    · have hmod : (tq.length + 1) % c = 0 := h1 ▸ hk
      have hdvd : c ∣ tq.length + 1 := Nat.dvd_of_mod_eq_zero hmod
      have hge : c ≤ tq.length + 1 := Nat.le_of_dvd (Nat.succ_pos _) hdvd
      have hlen : tq.length + 1 = c := Nat.le_antisymm h2 hge
      have hlen' : (tq ++ [x]).length = c := by simpa using hlen
      rw [if_pos hk, if_pos hlen']
      rw [ih (k + 1) [] (data ++ [tq ++ [x]]) ?inv ?bnd]
      · simp
      case inv =>
        rw [Nat.add_mod, hk, List.length_nil, Nat.zero_add, Nat.zero_add,
          Nat.mod_mod_of_dvd 1 (dvd_refl c)]
      case bnd => simpa using hc
    · have hlen : ¬ (tq ++ [x]).length = c := by
        intro hcon
        have : (tq.length + 1) % c = 0 := by
          simp only [List.length_append, List.length_singleton] at hcon
          rw [hcon]; exact Nat.mod_self c
        exact hk (h1 ▸ this.symm ▸ rfl)
      have hlt : tq.length + 1 < c := by
        rcases Nat.lt_or_ge (tq.length + 1) c with h | h
        · exact h
        · exact absurd (by simpa using Nat.le_antisymm h2 h) hlen
      rw [if_neg hk, if_neg hlen]
      rw [ih (k + 1) (tq ++ [x]) data ?inv2 ?bnd2]
      case inv2 =>
        rw [Nat.add_mod k 1 c, h1, ← Nat.add_mod]
        simp [Nat.add_comm, Nat.add_assoc]
      case bnd2 => simpa using hlt

theorem packGrid_eq_spec {α : Type} (c : Nat) (hc : 0 < c) (cells : List α) :
    packGrid c cells = packRowsSpec c cells := by
  unfold packGrid packRowsSpec
  rw [packGo_eq_spec c hc cells 1 [] [] (by simp) (by simpa using hc)]
  simp

/-! ## Claim theorems -/

/-- C1: every invocation that passes the profile-name check and resolves a
non-empty profile aborts with the unbound-name error on `csvlines` (line
169) before any label is built; moreover every invocation whatsoever ends
in one of the two configuration diagnostics or that same unbound-name
error, so no invocation ever reaches `qrdoc.build` (`wroteOutput`) or the
empty-input success exit. -/
theorem unbound_csvlines_aborts :
    (∀ (cfg : Config) (pn : String) (recs : List Record),
      (cfg.map CfgSection.name).contains pn = true →
      (scanGo pn cfg initState).profile.isEmpty = false →
      mainRun cfg pn recs = .runtimeError (.nameError "csvlines"))
    ∧ (∀ (cfg : Config) (pn : String) (recs : List Record),
      mainRun cfg pn recs = .configError "profile name not found in configuration file" ∨
      mainRun cfg pn recs = .configError "empty profile" ∨
      mainRun cfg pn recs = .runtimeError (.nameError "csvlines")) := by
  constructor
  · intro cfg pn recs h1 h2
    unfold mainRun
    rw [if_pos h1, if_neg (by simp [h2])]
    rfl
  · intro cfg pn recs
    unfold mainRun
    by_cases h1 : (cfg.map CfgSection.name).contains pn = true
    · rw [if_pos h1]
      by_cases h2 : (scanGo pn cfg initState).profile.isEmpty = true
      · rw [if_pos h2]
        exact Or.inr (Or.inl rfl)
      · rw [if_neg h2]
        exact Or.inr (Or.inr rfl)
    · rw [if_neg h1]
      exact Or.inl rfl

theorem unbound_csvlines_aborts_witness :
    mainRun [⟨"p", [("type", "vinyl"), ("pagesize", "A4")]⟩] "p" []
      = .runtimeError (.nameError "csvlines") :=
  unbound_csvlines_aborts.1 [⟨"p", [("type", "vinyl"), ("pagesize", "A4")]⟩] "p" []
    (by decide) (by decide)

/-- C2 (code bug): the text-block loop indexes `record['field']`, the
literal key, instead of `record[field]`; on the claim's own example — a
collection record with artist `X`, title `Y` and fields
`["artist", "title"]` — the code raises `KeyError('field')` and never
emits the values, while the spec-worded builder yields `"X<br/>Y"`; the
`condition` composite case is likewise unreachable. -/
theorem text_block_literal_field_bug :
    buildText [("artist", "X"), ("title", "Y"), ("release_id", "123")] ["artist", "title"]
        = .error (.keyError "field")
    ∧ buildTextSpecModel [("artist", "X"), ("title", "Y"), ("release_id", "123")]
        ["artist", "title"] = "X<br/>Y"
    ∧ buildText [("media_condition", "VG+"), ("sleeve_condition", "NM")] ["condition"]
        = .error (.keyError "field")
    ∧ buildTextSpecModel [("media_condition", "VG+"), ("sleeve_condition", "NM")]
        ["condition"] = "v/s: VG+/NM" :=
  ⟨by decide, by decide, by decide, by decide⟩

/-- C3: the code payload interpolates the shape-specific identifier into
the fixed URL template — `release/<release_id>` for the collection shape,
`sell/item/<listing_id>` for the inventory shape. -/
theorem code_payload_url (r : Record) (rid lid : String) :
    (lookupKV r "release_id" = some rid →
      codePayload "collection" r = .ok ("https://www.discogs.com/release/" ++ rid))
    ∧ (lookupKV r "listing_id" = some lid →
      codePayload "inventory" r = .ok ("https://www.discogs.com/sell/item/" ++ lid)) := by
  constructor
  · intro h
    unfold codePayload
    rw [if_pos rfl, h]
  · intro h
    unfold codePayload
    rw [if_neg (by decide), h]

theorem code_payload_url_witness :
    codePayload "collection" [("release_id", "123")]
        = .ok ("https://www.discogs.com/release/" ++ "123")
    ∧ codePayload "inventory" [("listing_id", "456")]
        = .ok ("https://www.discogs.com/sell/item/" ++ "456") :=
  ⟨(code_payload_url [("release_id", "123")] "123" "456").1 (by decide),
   (code_payload_url [("listing_id", "456")] "123" "456").2 (by decide)⟩

/-- C4: for every positive column count the packer of lines 259-266 agrees
with the spec-worded accumulator — cells appended in input order, a row
emitted each time the buffer reaches `columns` cells, the non-empty
remainder emitted unpadded — and on the claim's examples: 7 records at 3
columns give rows of lengths 3, 3, 1; 8 records at 4 columns give exactly
two rows of length 4. -/
theorem grid_packer_rows :
    (∀ (α : Type) (c : Nat) (cells : List α), 0 < c →
      packGrid c cells = packRowsSpec c cells)
    ∧ List.map List.length (packGrid 3 (List.range 7)) = [3, 3, 1]
    ∧ List.map List.length (packGrid 4 (List.range 8)) = [4, 4] :=
  ⟨fun _ c cells hc => packGrid_eq_spec c hc cells, by decide, by decide⟩

theorem grid_packer_rows_witness :
    packGrid 3 (List.range 7) = packRowsSpec 3 (List.range 7) :=
  grid_packer_rows.1 Nat 3 (List.range 7) (by decide)

/-- C5: for a profile section carrying a `type` key: with `pagesize = A4`
the stored page size is the standard A4 pair, the unit is the millimetre
factor and the cell dimension resolves to 35; otherwise a completed scan
has parsed `width` and `height` integers, the cell dimension is
`min(width, height) - 5`, and the page size is the `(width, height)` pair,
each component scaled by the millimetre factor exactly when a `unit = mm`
key was given and left raw otherwise. -/
theorem pagesize_resolution (sec : CfgSection) (t : String) (ht : sec.lookup "type" = some t) :
    (sec.lookup "pagesize" = some "A4" →
      ∃ p f, processProfileSection sec {} = .done p f ∧
        p.pagesize = some pagesizeA4 ∧ p.unit = some mmQ ∧ resolveDims p = .ok (p, 35))
    ∧ (sec.lookup "pagesize" ≠ some "A4" →
      ∀ p f, processProfileSection sec {} = .done p f →
        ∃ w h, (sec.lookup "width").bind pyInt = some w ∧
          (sec.lookup "height").bind pyInt = some h ∧
          p.width = some w ∧ p.height = some h ∧ p.pagesize = none ∧
          p.unit = (if sec.lookup "unit" = some "mm" then some mmQ else none) ∧
          resolveDims p = .ok ({ p with pagesize := some (match p.unit with
              | some u => ((w : ℚ) * u, (h : ℚ) * u)
              | none => ((w : ℚ), (h : ℚ))) }, ((min w h : ℤ) : ℚ) - 5)) := by
  constructor
  · intro hps
    unfold processProfileSection
    rw [ht, hps]
    simp only [if_pos rfl]
    refine ⟨_, _, rfl, ?_, ?_, ?_⟩ <;> (try split) <;> rfl
  · intro hps p f hdone
    unfold processProfileSection at hdone
    have hp1 : (match sec.lookup "pagesize" with
        | some v => if v = "A4" then
            { ({} : Profile) with pagesize := some pagesizeA4, unit := some mmQ }
          else ({} : Profile)
        | none => ({} : Profile)) = ({} : Profile) := by
      cases hpg : sec.lookup "pagesize" with
      | none => rfl
      | some v =>
        have hv : v ≠ "A4" := by intro hv; exact hps (hv ▸ hpg)
        simp [hv]
    simp only [ht, hp1] at hdone
    cases hr : readHW sec {} with
    | error q => rw [hr] at hdone; cases hdone
    | ok q =>
      rw [hr] at hdone
      obtain ⟨wv, hv, hhp, hwp, hq⟩ := readHW_ok sec {} q rfl hr
      subst hq
      simp only [SectionResult.done.injEq] at hdone
      obtain ⟨hp, hf⟩ := hdone
      subst hp
      refine ⟨wv, hv, hwp, hhp, ?_⟩
      constructor
      · split <;> rfl
      refine ⟨?_, ?_, ?_, ?_⟩ <;> split <;> rfl

/-- Profile produced by scanning a section with `type`, `height = 100`,
`width = 50` and `unit = mm`: used to instantiate `pagesize_resolution`. -/
def profileWH : Profile :=
  { height := some 100, width := some 50, rows := some 1, columns := some 1, unit := some mmQ }

/-- Section with explicit dimensions and a millimetre unit. -/
def secWH : CfgSection :=
  ⟨"p", [("type", "x"), ("height", "100"), ("width", "50"), ("unit", "mm")]⟩

theorem pagesize_resolution_witness :
    (∃ p f, processProfileSection ⟨"p", [("type", "x"), ("pagesize", "A4")]⟩ {} = .done p f ∧
      p.pagesize = some pagesizeA4 ∧ p.unit = some mmQ ∧ resolveDims p = .ok (p, 35))
    ∧ (∃ w h, (secWH.lookup "width").bind pyInt = some w ∧
        (secWH.lookup "height").bind pyInt = some h ∧
        profileWH.width = some w ∧ profileWH.height = some h ∧ profileWH.pagesize = none ∧
        (profileWH.unit = if secWH.lookup "unit" = some "mm" then some mmQ else none) ∧
        resolveDims profileWH = .ok ({ profileWH with pagesize := some (match profileWH.unit with
            | some u => ((w : ℚ) * u, (h : ℚ) * u)
            | none => ((w : ℚ), (h : ℚ))) }, ((min w h : ℤ) : ℚ) - 5)) :=
  ⟨(pagesize_resolution ⟨"p", [("type", "x"), ("pagesize", "A4")]⟩ "x" (by decide)).1 (by decide),
   (pagesize_resolution secWH "x" (by decide)).2 (by decide) profileWH ["artist", "title"] rfl⟩

/-- C6 (code bug): with `height = 100`, `width = 50` and no `unit` key the
scan succeeds, the raw unscaled page pair `(50, 100)` and cell dimension 45
are computed — but the document-geometry step reads `profile['unit']`
unconditionally (line 185, and again at lines 233 and 270-271) and raises
`KeyError('unit')`; independently, no invocation completes at all, dying
earlier on the unbound `csvlines`, so "the program still completes" fails. -/
theorem unit_unscaled_keyerror :
    processProfileSection ⟨"p", [("type", "x"), ("height", "100"), ("width", "50")]⟩ {}
        = .done { height := some 100, width := some 50, rows := some 1, columns := some 1 }
          ["artist", "title"]
    ∧ resolveDims { height := some 100, width := some 50, rows := some 1, columns := some 1 }
        = .ok ({ pagesize := some ((50 : ℚ), (100 : ℚ)), height := some 100, width := some 50, rows := some 1, columns := some 1 }, 45)
    ∧ docParams { pagesize := some ((50 : ℚ), (100 : ℚ)), height := some 100, width := some 50, rows := some 1, columns := some 1 } 45 = .error (.keyError "unit")
    ∧ mainRun [⟨"p", [("type", "x"), ("height", "100"), ("width", "50")]⟩] "p"
        [[("artist", "X")]] = .runtimeError (.nameError "csvlines") := by
  refine ⟨rfl, ?_, rfl, by decide⟩
  simp [resolveDims]
  norm_num

/-- C7 (code bug): a missing `height` key does reach the empty-profile
configuration diagnostic, but with a valid `height` and a malformed
`width` the bare `except` break leaves `profile = {'height': 100}`, the
`profile == {}` guard passes, and no configuration diagnostic is produced
— the run instead dies later on the unbound `csvlines`. -/
theorem width_malformed_no_diagnostic :
    mainRun [⟨"p", [("type", "x"), ("width", "100")]⟩] "p" [] = .configError "empty profile"
    ∧ mainRun [⟨"p", [("type", "x"), ("height", "100"), ("width", "abc")]⟩] "p" []
        = .runtimeError (.nameError "csvlines")
    ∧ (scanGo "p" [⟨"p", [("type", "x"), ("height", "100"), ("width", "abc")]⟩] initState).profile
        = { height := some 100 } :=
  ⟨by decide, by decide, by decide⟩

/-- C8: when every section bearing the requested profile's name lacks a
`type` key, no profile entry is ever stored, the `profile == {}` check
fires, and the run exits with the empty-profile diagnostic for every CSV
input, so no record processing or rendering happens. -/
theorem missing_type_aborts (cfg : Config) (pn : String) (recs : List Record)
    (h1 : (cfg.map CfgSection.name).contains pn = true)
    (h2 : ∀ sec ∈ cfg, sec.name = pn → sec.lookup "type" = none) :
    mainRun cfg pn recs = .configError "empty profile" := by
  unfold mainRun
  rw [if_pos h1]
  have hp := scanGo_profile_empty pn cfg initState rfl h2
  have hcond : (scanGo pn cfg initState).profile.isEmpty = true := by rw [hp]; rfl
  rw [if_pos hcond]

theorem missing_type_aborts_witness :
    mainRun [⟨"p", [("height", "100")]⟩] "p" [] = .configError "empty profile" :=
  missing_type_aborts [⟨"p", [("height", "100")]⟩] "p" [] (by decide) (by decide)

/-- C9 (code bug): with a fully valid configuration and a zero-record CSV
the run does not exit 0: line 169 reads the unbound name `csvlines` and the
process dies with `NameError` — a non-zero exit — never reaching the
empty-input `sys.exit(0)`. -/
theorem empty_input_crashes :
    mainRun [⟨"p", [("type", "x"), ("pagesize", "A4")]⟩] "p" []
      = .runtimeError (.nameError "csvlines") := by decide

/-- C10: a `general` section without a `type` key that is scanned before
the named profile's section aborts the loop at once — the profile section
is never read, the profile stays empty, and the run exits with the
empty-profile diagnostic no matter how valid that section is; with a
`type` key present, scanning continues past `general` after honouring
`swap-columns`. -/
theorem general_missing_type_blocks :
    (∀ (pre : List CfgSection) (g : CfgSection) (rest : List CfgSection)
        (pn : String) (recs : List Record),
      g.name = "general" → g.lookup "type" = none →
      (∀ s ∈ pre, s.name ≠ "general" ∧ s.name ≠ pn) →
      pn ∈ rest.map CfgSection.name →
      mainRun (pre ++ g :: rest) pn recs = .configError "empty profile")
    ∧ (∀ (pn : String) (g : CfgSection) (rest : List CfgSection) (st : ScanState) (t : String),
      g.name = "general" → g.lookup "type" = some t →
      scanGo pn (g :: rest) st =
        scanGo pn rest
          (if g.lookup "swap-columns" = some "yes" then { st with swapColumns := true } else st)) := by
  constructor
  · intro pre g rest pn recs hg hgt hpre hmem
    unfold mainRun
    have hc : ((pre ++ g :: rest).map CfgSection.name).contains pn = true := by
      apply List.elem_iff.mpr
      simp only [List.map_append, List.map_cons]
      exact List.mem_append_right _ (List.mem_cons_of_mem _ hmem)
    rw [if_pos hc]
    rw [scanGo_skip pn pre (g :: rest) initState hpre]
    have hscan : scanGo pn (g :: rest) initState = initState := by
      rw [scanGo, if_pos hg, hgt]
    rw [hscan]
    rfl
  · intro pn g rest st t hg hgt
    rw [scanGo, if_pos hg, hgt]

theorem general_missing_type_blocks_witness :
    mainRun [⟨"general", []⟩, ⟨"p", [("type", "x"), ("pagesize", "A4")]⟩] "p" []
      = .configError "empty profile" :=
  general_missing_type_blocks.1 [] ⟨"general", []⟩
    [⟨"p", [("type", "x"), ("pagesize", "A4")]⟩] "p" [] rfl rfl (by simp) (by decide)
